import Mathlib

/-!
Verification development for the SINTA cluster-predictor repository.

The parser `parse_metrics_page` (src/scraping_module.py and
src/new_scraping.py, identical bodies) is embedded as a pure function over
an explicit HTML model: a document is a list of tables, a table is a class
list plus a list of rows, a row is a list of cells.  Python exceptions
(IndexError, TypeError, KeyError, AttributeError) are modelled by the
`Except String` error channel.  The data manager `SintaDataManager`
(src/data_manager.py) is embedded over an insertion-ordered association
list modelling the Python dict, with Python values modelled by `PyVal`
(a float or a raw string) and the `float` builtin modelled by `pyFloat`.
-/

/-- True when the first list is a leading segment of the second,
comparing characters. -/
def charsLead : List Char → List Char → Bool
  | [], _ => true
  | _ :: _, [] => false
  | a :: as, b :: bs => a == b && charsLead as bs

/-- True when the first list occurs contiguously inside the second. -/
def charsSub (p : List Char) : List Char → Bool
  | [] => charsLead p []
  | c :: rest => charsLead p (c :: rest) || charsSub p rest

/-- Membership test for Python `pat in s` on strings. -/
def strContains (s pat : String) : Bool :=
  charsSub pat.toList s.toList

/-- Python `s.replace(",", ".")`: every comma becomes a period. -/
def replaceComma (s : String) : String :=
  String.mk (s.toList.map (fun c => if c == ',' then '.' else c))

/-- Python `str.strip()` and the strip flag of get_text: drop leading
and trailing whitespace. -/
def strTrim (s : String) : String :=
  String.mk
    (((s.toList.dropWhile Char.isWhitespace).reverse.dropWhile
      Char.isWhitespace).reverse)

/-- One table cell: its tag (th or td), the optional colspan attribute,
the optional inline style attribute, and its text content. -/
structure Cell where
  tag : String
  colspan : Option String
  style : Option String
  text : String
deriving DecidableEq, Repr

/-- A table row is its list of cells in document order. -/
abbrev Row := List Cell

/-- A table carries its class attribute values and its rows. -/
structure HtmlTable where
  classes : List String
  rows : List Row
deriving DecidableEq, Repr

/-- A document is the list of its tables in document order. -/
structure HtmlDoc where
  tables : List HtmlTable
deriving DecidableEq, Repr

/-- True when the style attribute is present and contains the
given substring, matching the lambda style matchers in the source. -/
def styleContains (c : Cell) (pat : String) : Bool :=
  match c.style with
  | some s => strContains s pat
  | none => false

/-- One detail metric observation, as built at lines 53..57 of
src/scraping_module.py. -/
structure ScoreRow where
  code : String
  name : String
  weight : String
  value : String
  total : String
deriving DecidableEq, Repr

/-- One subtotal rollup, as built at lines 44..47 of
src/scraping_module.py. -/
structure SubtotalEntry where
  label : String
  value : String
deriving DecidableEq, Repr

/-- An element of a section list: the Python lists are heterogeneous,
holding either detail dicts or subtotal dicts. -/
inductive Entry where
  | score (r : ScoreRow)
  | subtotal (e : SubtotalEntry)
deriving DecidableEq, Repr

/-- A value of the sections dict: a list of entries or the scalar
grand-total string. -/
inductive SecVal where
  | entries (es : List Entry)
  | scalar (s : String)
deriving DecidableEq, Repr

/-- The sections dict, modelled as an insertion-ordered association
list, as Python dicts are. -/
abbrev Sections := List (String × SecVal)

/-- Python dict lookup: the value at the key, if present. -/
def dictGet {α : Type} (st : List (String × α)) (k : String) : Option α :=
  (st.find? (fun kv => kv.1 == k)).map (fun kv => kv.2)

/-- Python dict assignment: replace in place when the key exists,
else append at the end. -/
def dictSet {α : Type} (st : List (String × α)) (k : String) (v : α) :
    List (String × α) :=
  match st with
  | [] => [(k, v)]
  | (k1, v1) :: rest =>
      if k1 == k then (k1, v) :: rest else (k1, v1) :: dictSet rest k v

/-- The first option when present, else the second: the lookup shape of
a merged dict. -/
def mergeLookup {α : Type} (a b : Option α) : Option α :=
  match a with
  | some v => some v
  | none => b

/-- Python `sections.setdefault(k, []).append(e)`: append to the list at
the key, creating an empty list first when the key is absent; appending
to a non-list raises AttributeError. -/
def appendSub (st : Sections) (k : String) (e : Entry) :
    Except String Sections :=
  match dictGet st k with
  | some (SecVal.entries es) => Except.ok (dictSet st k (SecVal.entries (es ++ [e])))
  | some (SecVal.scalar _) => Except.error "AttributeError"
  | none => Except.ok (st ++ [(k, SecVal.entries [e])])

/-- Python `sections[k].append(e)`: append to the list at the key;
a missing key raises KeyError, a non-list value raises AttributeError. -/
def appendDetail (st : Sections) (k : String) (e : Entry) :
    Except String Sections :=
  match dictGet st k with
  | some (SecVal.entries es) => Except.ok (dictSet st k (SecVal.entries (es ++ [e])))
  | some (SecVal.scalar _) => Except.error "AttributeError"
  | none => Except.error "KeyError"

/-- Line 23 of src/scraping_module.py: the first th cell of the row that
has a colspan attribute and a style containing the left-border marker. -/
def findHeaderCell (row : Row) : Option Cell :=
  row.find? (fun c =>
    c.tag == "th" && c.colspan.isSome && styleContains c "border-left: 3px solid")

/-- Lines 34 and 43: `row.find_all("th")[-1].get_text(strip=True)`,
the stripped text of the last th cell, when one exists. -/
def lastThText (row : Row) : Option String :=
  ((row.filter (fun c => c.tag == "th")).getLast?).map (fun c => strTrim c.text)

/-- Python truthiness of the `current_section` variable: a string is
truthy when nonempty, None is falsy. -/
def csTruthy : Option String → Bool
  | none => false
  | some s => !s.isEmpty

/-- Lines 50..66: the detail-row branch.  The guard asks for at least 5
cells with the left-border style on the first, then reads cells 1..5;
reading a missing cell raises IndexError. -/
def detailStep (secs : Sections) (cs : Option String) (row : Row) :
    Except String (Sections × Option String) :=
  if row.length ≥ 5 &&
      (match row.head? with
       | some c0 => styleContains c0 "border-left: 3px solid"
       | none => false) then
    match row.get? 1, row.get? 2, row.get? 3, row.get? 4, row.get? 5 with
    | some c1, some c2, some c3, some c4, some c5 =>
        let r : ScoreRow :=
          ⟨strTrim c1.text, strTrim c2.text, strTrim c3.text,
           replaceComma (strTrim c4.text), replaceComma (strTrim c5.text)⟩
        if csTruthy cs then
          match cs with
          | some k => (appendDetail secs k (Entry.score r)).map (fun s => (s, cs))
          | none => Except.ok (secs, cs)
        else Except.ok (secs, cs)
    | _, _, _, _, _ => Except.error "IndexError"
  else Except.ok (secs, cs)

/-- Lines 39..48: the subtotal branch.  A th cell styled italic consumes
the row; when its stripped text contains Total Score, a subtotal entry
is appended under the key built from the current section, and building
that key from None raises TypeError. -/
def subStep (secs : Sections) (cs : Option String) (row : Row) :
    Except String (Sections × Option String) :=
  match row.find? (fun c => c.tag == "th" && styleContains c "font-style: italic") with
  | some i =>
      let text := strTrim i.text
      if strContains text "Total Score" then
        match lastThText row with
        | some v =>
            match cs with
            | some c =>
                (appendSub secs (c ++ " (subtotal)") (Entry.subtotal ⟨text, v⟩)).map
                  (fun s => (s, cs))
            | none => Except.error "TypeError"
        | none => Except.error "IndexError"
      else Except.ok (secs, cs)
  | none => detailStep secs cs row

/-- Lines 32..36: the grand-total branch.  A th cell styled with the
accent color and whose raw text contains TOTAL ALL SCORE stores the
stripped text of the last th cell as a scalar, without normalization. -/
def grandStep (secs : Sections) (cs : Option String) (row : Row) :
    Except String (Sections × Option String) :=
  match row.find? (fun c => c.tag == "th" && styleContains c "#FF6B1A") with
  | some t =>
      if strContains t.text "TOTAL ALL SCORE" then
        match lastThText row with
        | some v => Except.ok (dictSet secs "TOTAL ALL SCORE" (SecVal.scalar v), cs)
        | none => Except.error "IndexError"
      else subStep secs cs row
  | none => subStep secs cs row

/-- Lines 21..29 and the dispatch of one loop iteration: a found header
cell whose raw text lacks Total consumes the row, opening a fresh empty
section when its stripped text contains Score in; otherwise the row
falls through to the grand-total, subtotal and detail branches. -/
def classify_row (secs : Sections) (cs : Option String) (row : Row) :
    Except String (Sections × Option String) :=
  match findHeaderCell row with
  | some h =>
      if strContains h.text "Total" then grandStep secs cs row
      else
        let t := strTrim h.text
        if strContains t "Score in" then
          Except.ok (dictSet secs t (SecVal.entries []), some t)
        else Except.ok (secs, cs)
  | none => grandStep secs cs row

/-- The row loop of parse_metrics_page, threading the sections dict and
the current section through the rows in document order. -/
def parse_rows : List Row → Sections → Option String → Except String Sections
  | [], secs, _ => Except.ok secs
  | r :: rs, secs, cs =>
      match classify_row secs cs r with
      | Except.error e => Except.error e
      | Except.ok (s2, c2) => parse_rows rs s2 c2

/-- Lines 10..68 of src/scraping_module.py: find the first table whose
class list contains table; with no such table return None (modelled as
`Except.ok none`), else run the row loop. -/
def parse_metrics_page (doc : HtmlDoc) : Except String (Option Sections) :=
  match doc.tables.find? (fun t => t.classes.contains "table") with
  | none => Except.ok none
  | some tb => (parse_rows tb.rows [] none).map some

/-- A Python float, modelled as an exact decimal fixed-point number:
the value is `mant / 10 ^ scale`.  The data-manager claims settled here
involve only sign tests, storing and returning values, never rounding,
so this decimal model is faithful for them. -/
structure PyFloat where
  mant : ℤ
  scale : ℕ
deriving DecidableEq, Repr

/-- The sign test `x < 0` on a modelled float. -/
def PyFloat.isNeg (x : PyFloat) : Bool := x.mant < 0

/-- A Python value held in the data store: a float or a raw string. -/
inductive PyVal where
  | num (x : PyFloat)
  | str (s : String)
deriving DecidableEq, Repr

/-- The numeric value of a digit list read in base ten. -/
def digitsVal (ds : List Char) : ℕ :=
  ds.foldl (fun a c => 10 * a + (c.toNat - 48)) 0

/-- The unsigned part of the Python float builtin on strings: digits
with an optional fraction after a period; anything else fails. -/
def parseFloatCore (cs : List Char) : Option PyFloat :=
  let intPart := cs.takeWhile Char.isDigit
  let rest := cs.dropWhile Char.isDigit
  match rest with
  | [] => if intPart.isEmpty then none else some ⟨(digitsVal intPart : ℤ), 0⟩
  | c :: rest2 =>
      if c == '.' then
        let fracPart := rest2.takeWhile Char.isDigit
        let rest3 := rest2.dropWhile Char.isDigit
        if rest3.isEmpty && !(intPart.isEmpty && fracPart.isEmpty) then
          some ⟨(digitsVal intPart * 10 ^ fracPart.length + digitsVal fracPart : ℤ),
                fracPart.length⟩
        else none
      else none

/-- The Python float builtin on strings: strip whitespace, take an
optional sign, then a plain decimal numeral.  Exotic inputs accepted by
CPython (exponents, inf, nan) are outside the fragment this repository
stores, and fail here as non-numeric. -/
def parsePyFloat (s : String) : Option PyFloat :=
  match (strTrim s).toList with
  | '+' :: rest => parseFloatCore rest
  | '-' :: rest => (parseFloatCore rest).map (fun q => ⟨-q.mant, q.scale⟩)
  | cs => parseFloatCore cs

/-- Python `float(v)` on a stored value: a float coerces to itself, a
string is parsed; failure models the ValueError or TypeError caught by
the data manager. -/
def pyFloat : PyVal → Option PyFloat
  | PyVal.num q => some q
  | PyVal.str s => parsePyFloat s

/-- The SINTA_DB session store: an insertion-ordered dict from metric
code to stored value. -/
abbrev Store := List (String × PyVal)

/-- A decimal literal of the defaults table: mantissa and scale, so that
`dv 92 3` is the literal 0.092 and `dv 180 1` is 18.0. -/
def dv (m : ℤ) (s : ℕ) : PyVal := PyVal.num ⟨m, s⟩

/-- Lines 32..58 of src/data_manager.py: the canonical default values
table, each literal transcribed as its exact decimal. -/
def default_values : Store :=
  [("AI1", dv 92 3), ("AI2", dv 76 3), ("AI3", dv 139 3),
   ("AI4", dv 34 3), ("AI5", dv 34 3),
   ("AI6", dv 151 3), ("AI7", dv 34301 2), ("AI8", dv 349 3),
   ("AN1", dv 21 3), ("AN2", dv 202 3), ("AN3", dv 441 3),
   ("AN4", dv 2366 3), ("AN5", dv 2294 3), ("AN6", dv 122 3),
   ("AN7", dv 1483 3), ("AN8", dv 13 3), ("AN9", dv 0 1),
   ("AN10", dv 0 1),
   ("DGS1", dv 22092 3), ("DGS2", dv 2426 3), ("DGS3", dv 9828 3),
   ("B1", dv 202 3), ("B2", dv 622 3), ("B3", dv 25 3),
   ("P1", dv 0 1), ("P2", dv 0 1), ("P3", dv 180 1),
   ("P4", dv 70 1), ("P5", dv 4860 1), ("P6", dv 100 1),
   ("P7", dv 252396 2),
   ("PM1", dv 0 1), ("PM2", dv 0 1), ("PM3", dv 60 1),
   ("PM4", dv 30 1), ("PM5", dv 4760 1), ("PM6", dv 130 1),
   ("PM7", dv 79335 2),
   ("KI1", dv 0 1), ("KI2", dv 0 1), ("KI3", dv 4 3),
   ("KI4", dv 0 1), ("KI5", dv 0 1), ("KI6", dv 0 1),
   ("KI7", dv 4 3), ("KI8", dv 143 3), ("KI9", dv 60 1),
   ("KI10", dv 0 1),
   ("R1", dv 0 1), ("R2", dv 0 1), ("R3", dv 0 1),
   ("DOS1", dv 4 3), ("DOS2", dv 54 3), ("DOS3", dv 43 2),
   ("DOS4", dv 318 3), ("DOS5", dv 193 3), ("REV1", dv 0 1),
   ("APS1", dv 0 1), ("APS2", dv 833 3), ("APS3", dv 167 3),
   ("APS4", dv 0 1),
   ("JO1", dv 0 1), ("JO2", dv 0 1), ("JO3", dv 0 1),
   ("JO4", dv 40 1), ("JO5", dv 90 1), ("JO6", dv 10 1)]

/-- Lines 64..70: `float(db.get(key, default))`, with the default
returned both on a missing key and on a coercion failure; the default
parameter is itself a float, so coercing it never fails. -/
def get_value (st : Store) (key : String) (default : PyFloat) : PyFloat :=
  match dictGet st key with
  | some v =>
      match pyFloat v with
      | some q => q
      | none => default
  | none => default

/-- Lines 72..81: coerce to float and store; on failure store the raw
value and report that a warning was emitted (the Bool). -/
def set_value (st : Store) (key : String) (v : PyVal) : Store × Bool :=
  match pyFloat v with
  | some q => (dictSet st key (PyVal.num q), false)
  | none => (dictSet st key v, true)

/-- Lines 87..89: reset replaces the store with a copy of the defaults. -/
def reset_data : Store := default_values

/-- Python `dict.update`: assign each incoming pair into the store in
order. -/
def dict_update {α : Type} (st incoming : List (String × α)) :
    List (String × α) :=
  incoming.foldl (fun acc kv => dictSet acc kv.1 kv.2) st

/-- Lines 114..137, the store mutation of load_from_file once the JSON
is decoded: `SINTA_DB.update(loaded_data)`. -/
def load_from_file (st loaded : Store) : Store := dict_update st loaded

/-- Lines 190..197: restore replaces the store with the backup dict. -/
def restore_from_backup (_st : Store) (backup : Store) : Store := backup

/-- Lines 139..163: every canonical default field missing from the store
is an issue, and every stored value that does not coerce to a
non-negative float is an issue; an empty result means valid. -/
def validate_data (st : Store) : List (String × String) :=
  let missing := (default_values.map Prod.fst).foldl
    (fun errs f =>
      if (dictGet st f).isSome then errs
      else dictSet errs f ("Missing field: " ++ f)) []
  st.foldl
    (fun errs kv =>
      match pyFloat kv.2 with
      | some q =>
          if q.isNeg then dictSet errs kv.1 ("Value must be non-negative: " ++ kv.1)
          else errs
      | none => dictSet errs kv.1 ("Value must be numeric: " ++ kv.1)) missing

/-- A section header row: one th cell spanning columns, left-border
styled, with the given caption text. -/
def hdrRow (t : String) : Row :=
  [⟨"th", some "6", some "border-left: 3px solid black", t⟩]

/-- A six-cell detail row: a style-marker first cell then the code,
name, weight, value and total cells. -/
def detailRow6 (c n w v t : String) : Row :=
  [⟨"td", none, some "border-left: 3px solid black", ""⟩,
   ⟨"td", none, none, c⟩, ⟨"td", none, none, n⟩, ⟨"td", none, none, w⟩,
   ⟨"td", none, none, v⟩, ⟨"td", none, none, t⟩]

/-- A five-cell detail-shaped row: the style-marker first cell and four
data cells, one short of the six the extraction reads. -/
def detailRow5 : Row :=
  [⟨"td", none, some "border-left: 3px solid black", ""⟩,
   ⟨"td", none, none, "AI1"⟩, ⟨"td", none, none, "Name"⟩,
   ⟨"td", none, none, "4"⟩, ⟨"td", none, none, "0,4"⟩]

/-- A subtotal row: an italic th label cell and a th value cell. -/
def subtotalRow (t v : String) : Row :=
  [⟨"th", none, some "font-style: italic", t⟩, ⟨"th", none, none, v⟩]

/-- A grand-total row: an accent-colored th caption cell and a th value
cell. -/
def grandRow (v : String) : Row :=
  [⟨"th", none, some "background: #FF6B1A", "TOTAL ALL SCORE"⟩,
   ⟨"th", none, none, v⟩]

/-- A document holding one table with the table class and the given
rows. -/
def mkDoc (rows : List Row) : HtmlDoc := ⟨[⟨["table"], rows⟩]⟩

/-- A bordered multi-column heading row whose caption has neither a
Total caption nor the Score in marker, followed by five data cells, so
that the detail-category guard also holds of it. -/
def borderedHeaderRow6 : Row :=
  [⟨"th", some "2", some "border-left: 3px solid black", "Institution Profile"⟩,
   ⟨"td", none, none, "a"⟩, ⟨"td", none, none, "b"⟩, ⟨"td", none, none, "c"⟩,
   ⟨"td", none, none, "d"⟩, ⟨"td", none, none, "e"⟩]

/-- Lookup on a one-step-extended dict. -/
theorem dictGet_cons {α : Type} (a : String × α) (rest : List (String × α))
    (k : String) :
    dictGet (a :: rest) k = if a.1 == k then some a.2 else dictGet rest k := by
  simp only [dictGet, List.find?]
  cases h : (a.1 == k) <;> simp [h]

/-- Lookup after a dict assignment: the assigned key reads the new
value, every other key is unchanged. -/
theorem dictGet_dictSet {α : Type} (st : List (String × α)) (k1 k : String)
    (v : α) :
    dictGet (dictSet st k1 v) k = if k1 == k then some v else dictGet st k := by
  induction st with
  | nil =>
      simp [dictSet, dictGet_cons, dictGet]
  | cons a rest ih =>
      obtain ⟨ka, va⟩ := a
      simp only [dictSet]
      by_cases h1 : ka = k1
      · subst h1
        simp only [beq_self_eq_true, if_true, dictGet_cons]
        by_cases h2 : ka = k <;> simp [h2]
      · have h1b : (ka == k1) = false := by simp [h1]
        rw [h1b]
        simp only [Bool.false_eq_true, if_false, dictGet_cons, ih]
        by_cases h2 : ka = k <;> by_cases h3 : k1 = k <;>
          simp_all [beq_iff_eq]

/-- A key outside the key list of a dict reads nothing. -/
theorem dictGet_eq_none_of_not_mem {α : Type} (data : List (String × α))
    (k : String) (h : k ∉ data.map Prod.fst) : dictGet data k = none := by
  induction data with
  | nil => rfl
  | cons a rest ih =>
      simp only [List.map_cons, List.mem_cons, not_or] at h
      rw [dictGet_cons]
      have hne : (a.1 == k) = false := by
        simp [beq_iff_eq]
        intro e
        exact h.1 e.symm
      rw [hne]
      simp only [Bool.false_eq_true, if_false]
      exact ih h.2

/-- Lookup after a dict update: a key carried by the incoming data reads
its incoming value, any other key keeps its prior value. -/
theorem dictGet_dict_update {α : Type} (data : List (String × α)) :
    ∀ (st : List (String × α)) (k : String),
      (data.map Prod.fst).Nodup →
      dictGet (dict_update st data) k =
        mergeLookup (dictGet data k) (dictGet st k) := by
  induction data with
  | nil =>
      intro st k _
      rfl
  | cons a rest ih =>
      intro st k hnd
      obtain ⟨ka, va⟩ := a
      simp only [List.map_cons, List.nodup_cons] at hnd
      have step : dict_update st ((ka, va) :: rest) =
          dict_update (dictSet st ka va) rest := rfl
      rw [step, ih (dictSet st ka va) k hnd.2, dictGet_cons, dictGet_dictSet]
      by_cases h2 : ka = k
      · subst h2
        rw [dictGet_eq_none_of_not_mem rest ka hnd.1]
        simp [mergeLookup]
      · have h2b : (ka == k) = false := by simp [h2]
        rw [h2b]
        simp only [Bool.false_eq_true, if_false]

/-- Claim C1: a detail-shaped row with exactly five cells satisfies the
at-least-five guard of the detail branch, yet the extraction raises
IndexError, because the total field is read from cell index 5, which a
five-cell row does not have.  This contradicts the guard the code
itself states, so the claim is right and the code has an off-by-one
slip. -/
theorem c1_five_cell_detail_row_raises :
    (decide (detailRow5.length ≥ 5) &&
      (match detailRow5.head? with
       | some c0 => styleContains c0 "border-left: 3px solid"
       | none => false)) = true ∧
    parse_metrics_page (mkDoc [detailRow5]) = Except.error "IndexError" :=
  ⟨rfl, rfl⟩

/-- Claim C2 counterexample: two identical section captions collide into
one entry, but the detail row extracted under the first occurrence is
discarded when the second header arrives, so it does not appear in the
final sequence. -/
theorem c2_duplicate_caption_counterexample :
    parse_metrics_page (mkDoc
      [hdrRow "A Score in B",
       detailRow6 "X1" "n1" "1" "1,5" "1,5",
       hdrRow "A Score in B",
       detailRow6 "X2" "n2" "2" "2,5" "5,0"]) =
      Except.ok (some [("A Score in B",
        SecVal.entries [Entry.score ⟨"X2", "n2", "2", "2.5", "5.0"⟩])]) ∧
    Entry.score ⟨"X1", "n1", "1", "1.5", "1.5"⟩ ∉
      ([Entry.score ⟨"X2", "n2", "2", "2.5", "5.0"⟩] : List Entry) :=
  ⟨rfl, by decide⟩

/-- Claim C2 (amended): a section header row assigns a fresh empty
sequence under its caption, so a repeated caption keeps a single entry
whose content is reset: only the rows seen under the last occurrence
survive, earlier rows are discarded. -/
theorem c2_section_header_resets (secs : Sections) (cs : Option String)
    (t : String)
    (hT : strContains t "Total" = false)
    (hS : strContains (strTrim t) "Score in" = true) :
    classify_row secs cs (hdrRow t) =
      Except.ok (dictSet secs (strTrim t) (SecVal.entries []), some (strTrim t)) := by
  have heq : classify_row secs cs (hdrRow t) =
      if strContains t "Total" then grandStep secs cs (hdrRow t)
      else if strContains (strTrim t) "Score in" then
        Except.ok (dictSet secs (strTrim t) (SecVal.entries []), some (strTrim t))
      else Except.ok (secs, cs) := rfl
  rw [heq, hT, hS]
  simp

/-- Claim C2 witness: the reset applied to a store already holding a row
under the same caption. -/
theorem c2_section_header_resets_witness :
    strContains "A Score in B" "Total" = false ∧
    strContains (strTrim "A Score in B") "Score in" = true ∧
    classify_row
      [("A Score in B", SecVal.entries [Entry.score ⟨"X1", "n1", "1", "1.5", "1.5"⟩])]
      (some "A Score in B") (hdrRow "A Score in B") =
      Except.ok ([("A Score in B", SecVal.entries [])], some "A Score in B") :=
  ⟨by decide, by decide,
   c2_section_header_resets
     [("A Score in B", SecVal.entries [Entry.score ⟨"X1", "n1", "1", "1.5", "1.5"⟩])]
     (some "A Score in B") "A Score in B" (by decide) (by decide)⟩

/-- Claim C3 counterexample: a subtotal row met before any section
header makes the extraction raise TypeError, rather than produce an
entry under the malformed key. -/
theorem c3_orphan_subtotal_counterexample :
    parse_metrics_page (mkDoc [subtotalRow "Total Score Publication" "12,3"]) =
      Except.error "TypeError" :=
  rfl

/-- Claim C3 (amended): when no section is open, a subtotal row makes
the extraction raise TypeError while building the subtotal key from the
absent section name; no SubtotalEntry and no malformed key is
produced. -/
theorem c3_orphan_subtotal_raises (secs : Sections) (txt val : String)
    (h : strContains (strTrim txt) "Total Score" = true) :
    classify_row secs none (subtotalRow txt val) = Except.error "TypeError" := by
  have heq : classify_row secs none (subtotalRow txt val) =
      if strContains (strTrim txt) "Total Score" then Except.error "TypeError"
      else Except.ok (secs, none) := rfl
  rw [heq, h]
  simp

/-- Claim C3 witness: the TypeError raised on a concrete orphan subtotal
row. -/
theorem c3_orphan_subtotal_raises_witness :
    strContains (strTrim "Total Score Publication") "Total Score" = true ∧
    classify_row [] none (subtotalRow "Total Score Publication" "12,3") =
      Except.error "TypeError" :=
  ⟨by decide, c3_orphan_subtotal_raises [] "Total Score Publication" "12,3" (by decide)⟩

/-- Claim C4 counterexample: a row carrying a multi-column left-border
heading cell whose text has neither a Total caption nor the Score in
marker also satisfies the detail-category guard, yet with a section
open it is not appended as a detail row: the section stays empty,
because the header branch consumes the row. -/
theorem c4_bordered_heading_counterexample :
    (decide (borderedHeaderRow6.length ≥ 5) &&
      (match borderedHeaderRow6.head? with
       | some c0 => styleContains c0 "border-left: 3px solid"
       | none => false)) = true ∧
    parse_metrics_page (mkDoc [hdrRow "A Score in B", borderedHeaderRow6]) =
      Except.ok (some [("A Score in B", SecVal.entries [])]) :=
  ⟨rfl, rfl⟩

/-- Claim C4 (amended): a row whose found heading cell lacks a Total
caption is consumed by the section-header branch even when its text
lacks the Score in marker: the row is never tested against the
grand-total, subtotal or detail categories, and extraction leaves both
the sections and the current section unchanged. -/
theorem c4_header_branch_consumes (secs : Sections) (cs : Option String)
    (row : Row) (h : Cell)
    (hf : findHeaderCell row = some h)
    (hT : strContains h.text "Total" = false)
    (hS : strContains (strTrim h.text) "Score in" = false) :
    classify_row secs cs row = Except.ok (secs, cs) := by
  unfold classify_row
  rw [hf]
  simp [hT, hS]

/-- Claim C4 witness: the bordered non-section heading row is consumed
without effect. -/
theorem c4_header_branch_consumes_witness :
    findHeaderCell borderedHeaderRow6 =
      some ⟨"th", some "2", some "border-left: 3px solid black", "Institution Profile"⟩ ∧
    strContains "Institution Profile" "Total" = false ∧
    strContains (strTrim "Institution Profile") "Score in" = false ∧
    classify_row [] (some "A Score in B") borderedHeaderRow6 =
      Except.ok ([], some "A Score in B") :=
  ⟨rfl, by decide, by decide,
   c4_header_branch_consumes [] (some "A Score in B") borderedHeaderRow6
     ⟨"th", some "2", some "border-left: 3px solid black", "Institution Profile"⟩
     rfl (by decide) (by decide)⟩

/-- Claim C5 counterexample: restoring from a backup that lacks a key
the store holds does not keep that key: the whole store is replaced, so
the prior entry is gone. -/
theorem c5_restore_counterexample :
    dictGet [("AI1", dv 92 3)] "AI1" = some (dv 92 3) ∧
    dictGet [("AN1", dv 21 3)] "AI1" = none ∧
    restore_from_backup [("AI1", dv 92 3)] [("AN1", dv 21 3)] = [("AN1", dv 21 3)] ∧
    dictGet (restore_from_backup [("AI1", dv 92 3)] [("AN1", dv 21 3)]) "AI1" = none := by
  refine ⟨by decide, by decide, rfl, by decide⟩

/-- Claim C5 (amended): restore_from_backup replaces the whole store
with the given data, and the merge described by the claim is instead the
dict update of load_from_file: keys carried by the incoming data take
their incoming values, and every other key keeps its stored value. -/
theorem c5_restore_replaces_load_merges (st data : Store) (k : String)
    (hnd : (data.map Prod.fst).Nodup) :
    restore_from_backup st data = data ∧
    dictGet (load_from_file st data) k =
      mergeLookup (dictGet data k) (dictGet st k) :=
  ⟨rfl, by unfold load_from_file; exact dictGet_dict_update data st k hnd⟩

/-- Claim C5 witness: the replace and the merge on concrete stores. -/
theorem c5_restore_replaces_load_merges_witness :
    ((([("AN1", dv 99 0)] : Store).map Prod.fst).Nodup) ∧
    (restore_from_backup [("AI1", dv 92 3), ("AN1", dv 21 3)] [("AN1", dv 99 0)] =
        [("AN1", dv 99 0)] ∧
      dictGet (load_from_file [("AI1", dv 92 3), ("AN1", dv 21 3)]
          [("AN1", dv 99 0)]) "AI1" =
        mergeLookup (dictGet ([("AN1", dv 99 0)] : Store) "AI1")
          (dictGet ([("AI1", dv 92 3), ("AN1", dv 21 3)] : Store) "AI1")) :=
  ⟨by decide,
   c5_restore_replaces_load_merges
     [("AI1", dv 92 3), ("AN1", dv 21 3)] [("AN1", dv 99 0)] "AI1" (by decide)⟩

/-- Claim C6: normalization is asymmetric.  Every detail row stores its
value and total fields with each comma replaced by a period, while the
grand-total scalar is stored stripped but otherwise unnormalized; in
particular the comma survives in a grand-total cell. -/
theorem c6_normalization_asymmetry (v t g : String) (secs : Sections)
    (cs : Option String) :
    classify_row [("A Score in B", SecVal.entries [])] (some "A Score in B")
        (detailRow6 "AI1" "Name" "0,4" v t) =
      Except.ok ([("A Score in B", SecVal.entries
        [Entry.score ⟨"AI1", "Name", "0,4",
          replaceComma (strTrim v), replaceComma (strTrim t)⟩])],
        some "A Score in B") ∧
    classify_row secs cs (grandRow g) =
      Except.ok (dictSet secs "TOTAL ALL SCORE" (SecVal.scalar (strTrim g)), cs) ∧
    replaceComma (strTrim "1,234") = "1.234" ∧
    strTrim "543,21" = "543,21" :=
  ⟨rfl, rfl, by decide, by decide⟩

/-- Claim C7: storing a non-coercible value keeps it raw with a warning,
and reading it back with a default returns the default; get_value is a
total function, so it never raises. -/
theorem c7_set_raw_get_default (st : Store) (d : PyFloat) :
    dictGet (set_value st "AI1" (PyVal.str "not-a-number")).1 "AI1" =
      some (PyVal.str "not-a-number") ∧
    (set_value st "AI1" (PyVal.str "not-a-number")).2 = true ∧
    get_value (set_value st "AI1" (PyVal.str "not-a-number")).1 "AI1" d = d := by
  have hp : pyFloat (PyVal.str "not-a-number") = none := by decide
  have hset : set_value st "AI1" (PyVal.str "not-a-number") =
      (dictSet st "AI1" (PyVal.str "not-a-number"), true) := by
    simp [set_value, hp]
  refine ⟨?_, ?_, ?_⟩
  · rw [hset]
    simp [dictGet_dictSet]
  · rw [hset]
  · rw [hset]
    simp [get_value, dictGet_dictSet, hp]

/-- Claim C8: resetting and then validating yields an empty issue list:
every canonical default field is present and every default value is a
non-negative float. -/
theorem c8_reset_then_validate_empty : validate_data reset_data = [] := by decide

/-- Claim C9: a document without any table carrying the table class
yields the distinguished no-table outcome None, not an error. -/
theorem c9_no_table_returns_none (doc : HtmlDoc)
    (h : ∀ tb ∈ doc.tables, tb.classes.contains "table" = false) :
    parse_metrics_page doc = Except.ok none := by
  have hf : doc.tables.find? (fun tb => tb.classes.contains "table") = none := by
    rw [List.find?_eq_none]
    intro tb htb
    simpa using h tb htb
  unfold parse_metrics_page
  rw [hf]

/-- Claim C9 witness: a concrete document whose only table lacks the
table class. -/
theorem c9_no_table_returns_none_witness :
    (∀ tb ∈ (HtmlDoc.mk [HtmlTable.mk ["datatable"] []]).tables,
      tb.classes.contains "table" = false) ∧
    parse_metrics_page (HtmlDoc.mk [HtmlTable.mk ["datatable"] []]) =
      Except.ok none :=
  ⟨by decide, c9_no_table_returns_none (HtmlDoc.mk [HtmlTable.mk ["datatable"] []])
    (by decide)⟩

/-- Claim C10: reading a key absent from the store returns the float of
the supplied default, through the same fallback as coercion failure,
without raising. -/
theorem c10_missing_key_returns_default (st : Store) (k : String) (d : PyFloat)
    (h : dictGet st k = none) : get_value st k d = d := by
  simp [get_value, h]

/-- Claim C10 witness: a concrete missing key on a nonempty store. -/
theorem c10_missing_key_returns_default_witness :
    dictGet ([("AI1", dv 92 3)] : Store) "ZZ9" = none ∧
    get_value [("AI1", dv 92 3)] "ZZ9" ⟨7, 0⟩ = ⟨7, 0⟩ :=
  ⟨by decide, c10_missing_key_returns_default [("AI1", dv 92 3)] "ZZ9" ⟨7, 0⟩ (by decide)⟩
